import Mathlib

/-!
Verification of the mystrom exporter core against its specification.

The development shallow-embeds the two core source units:
* `pkg/discover/discover.go` — UDP discovery listener, device table, manifest builder;
* `main.go` — the scrape HTTP handlers and their counters.

Machine bytes are modelled as `Nat` (each datagram byte is in `0..255`);
Go's package-level map `discoverlist` is modelled as an association list
with map-assignment semantics; the opaque device client is modelled as an
abstract scrape outcome parameter.
-/

/-- Device record, embedding `discover.Packet`: `SourceIP`, `Port`,
`MacAddress` (a byte slice, `net.HardwareAddr`) and `DeviceType`. -/
structure Packet where
  sourceIP : String
  port : Nat
  macAddress : List Nat
  deviceType : Nat
deriving Repr, DecidableEq

/-- Hex digit characters used by Go's `net.HardwareAddr.String`. -/
def hexDigitChar (n : Nat) : Char :=
  "0123456789abcdef".toList.getD n '0'

/-- Two lowercase hex digits of one byte, as in `net.HardwareAddr.String`. -/
def hexByte (n : Nat) : String :=
  String.singleton (hexDigitChar (n / 16 % 16)) ++ String.singleton (hexDigitChar (n % 16))

/-- Embedding of `net.HardwareAddr.String`: colon-separated lowercase hex
pairs; the empty address renders as the empty string. -/
def hwAddrString (a : List Nat) : String :=
  String.intercalate ":" (a.map hexByte)

/-- Outcome of one iteration of the receive loop body in `discover.listen`
for a single datagram: the datagram is skipped (`continue`), a decoded
packet is pushed onto the channel, or the byte access `buffer.String()[6]`
is out of range (a Go runtime panic). -/
inductive ListenResult where
  | skip
  | indexOutOfRange
  | packet (p : Packet)
deriving Repr, DecidableEq

/-- Embedding of the datagram-decoding portion of `discover.listen`
(discover.go lines 118-132): the received bytes `inputBytes[:length]`, the
guard `len(buffer.String()) < 6 -> continue`, then
`macString := buffer.String()[0:6]` and `deviceType := int(buffer.String()[6])`;
the index `[6]` is out of range exactly when the datagram has length 6. -/
def decodeDatagram (data : List Nat) (srcIP : String) (srcPort : Nat) : ListenResult :=
  if data.length < 6 then
    ListenResult.skip
  else
    match data.get? 6 with
    | none => ListenResult.indexOutOfRange
    | some dt =>
        ListenResult.packet
          { sourceIP := srcIP
            port := srcPort
            macAddress := data.take 6
            deviceType := dt }

/-- The device table `discover.discoverlist` (`map[string]Packet`), as an
association list from key string to record, at most one entry per key. -/
abbrev Packetlist := List (String × Packet)

/-- Map assignment `m[k] = v` on the association list: replaces the entry
with key `k` if present, otherwise appends a new entry. -/
def setKey (k : String) (v : Packet) : Packetlist → Packetlist
  | [] => [(k, v)]
  | (k', v') :: rest =>
      if k' = k then (k, v) :: rest else (k', v') :: setKey k v rest

/-- Embedding of the body of `discover.update` (discover.go line 98):
`discoverlist[msg.MacAddress.String()] = msg`. -/
def update (tbl : Packetlist) (msg : Packet) : Packetlist :=
  setKey (hwAddrString msg.macAddress) msg tbl

/-- Go map read `discoverlist[macaddr]` as an optional lookup. -/
def lookupTable (tbl : Packetlist) (k : String) : Option Packet :=
  (tbl.find? (fun kv => kv.1 == k)).map (fun kv => kv.2)

/-- The zero value of `discover.Packet`, which a Go map read yields for a
missing key. -/
def emptyPacket : Packet :=
  { sourceIP := "", port := 0, macAddress := [], deviceType := 0 }

/-- Embedding of `discover.TargetByMacaddr` (discover.go lines 89-91):
`return discoverlist[macaddr].SourceIP`, where a missing key yields the
zero-value record and hence the empty string. -/
def TargetByMacaddr (tbl : Packetlist) (macaddr : String) : String :=
  ((lookupTable tbl macaddr).getD emptyPacket).sourceIP

/-- One manifest entry, embedding `discover.TargetsEntry`; `labels` keeps
the source's construction order. -/
structure TargetsEntry where
  targets : List String
  labels : List (String × String)
deriving Repr, DecidableEq

/-- One loop iteration of `discover.Discover` (discover.go lines 71-83):
the entry for table key `macaddr` holding record `data`. -/
def mkEntry (localAddress : String) (macaddr : String) (data : Packet) : TargetsEntry :=
  { targets := [localAddress]
    labels :=
      [("instance", data.sourceIP),
       ("__metrics_path__", "/device_by_mac/" ++ hwAddrString data.macAddress),
       ("__mac_address", macaddr),
       ("__device_type", toString data.deviceType)] }

/-- The manifest entry list built by the loop of `discover.Discover`. -/
def discoverEntries (localAddress : String) (tbl : Packetlist) : List TargetsEntry :=
  tbl.map (fun kv => mkEntry localAddress kv.1 kv.2)

/-- Label lookup in a manifest entry's label set (a Go map read; the label
lists built by `mkEntry` have distinct keys). -/
def labelGet (ls : List (String × String)) (k : String) : String :=
  ((ls.find? (fun kv => kv.1 == k)).map (fun kv => kv.2)).getD ""

/-- JSON escaping of one character as `encoding/json` does for the ASCII
payloads this program emits: quote, backslash, control characters, and the
HTML-escaped `<`, `>`, `&`. -/
def jsonEscapeChar (c : Char) : String :=
  if c = '"' then "\\\""
  else if c = '\\' then "\\\\"
  else if c = '\n' then "\\n"
  else if c = '\r' then "\\r"
  else if c = '\t' then "\\t"
  else if c = '<' then "\\u003c"
  else if c = '>' then "\\u003e"
  else if c = '&' then "\\u0026"
  else if c.toNat < 32 then "\\u00" ++ hexByte c.toNat
  else String.singleton c

/-- A JSON string literal. -/
def jsonString (s : String) : String :=
  "\"" ++ String.join (s.toList.map jsonEscapeChar) ++ "\""

/-- A JSON array of strings, as `encoding/json` marshals `[]string`. -/
def jsonStringArray (xs : List String) : String :=
  "[" ++ String.intercalate "," (xs.map jsonString) ++ "]"

/-- Byte-order comparison on character lists, matching Go's string
ordering on the ASCII label keys used here. -/
def charsLt : List Char → List Char → Bool
  | [], [] => false
  | [], _ :: _ => true
  | _ :: _, [] => false
  | a :: as, b :: bs =>
      if a < b then true else if b < a then false else charsLt as bs

/-- String ordering used to sort map keys, as `encoding/json` sorts the
keys of a `map[string]string` before marshalling. -/
def strLt (a b : String) : Bool :=
  charsLt a.toList b.toList

/-- Insertion into a key-sorted label list. -/
def insertLabel (kv : String × String) : List (String × String) → List (String × String)
  | [] => [kv]
  | x :: xs => if strLt kv.1 x.1 then kv :: x :: xs else x :: insertLabel kv xs

/-- Sort labels by key, as `encoding/json` marshals map keys in sorted
order. -/
def sortLabels (ls : List (String × String)) : List (String × String) :=
  ls.foldr insertLabel []

/-- JSON object for a `LabelsList` (`map[string]string`): keys sorted. -/
def jsonLabels (ls : List (String × String)) : String :=
  "\x7b" ++
    String.intercalate ","
      ((sortLabels ls).map (fun kv => jsonString kv.1 ++ ":" ++ jsonString kv.2)) ++
    "\x7d"

/-- JSON object for one `TargetsEntry`, struct fields in tag order
`targets`, `labels`. -/
def jsonEntry (e : TargetsEntry) : String :=
  "\x7b\"targets\":" ++ jsonStringArray e.targets ++ ",\"labels\":" ++ jsonLabels e.labels ++ "\x7d"

/-- Marshalling of the `TargetsList` slice: `discover.Discover` declares
`var targetlist TargetsList` (nil) and only appends inside the loop, and
`encoding/json` marshals a nil slice as the literal `null`, a non-nil
slice as a JSON array. -/
def jsonMarshalTargetsList (l : List TargetsEntry) : String :=
  if l.isEmpty then "null"
  else "[" ++ String.intercalate "," (l.map jsonEntry) ++ "]"

/-- Embedding of `discover.Discover` (discover.go lines 68-86): build one
entry per table element, then marshal the list. -/
def Discover (localAddress : String) (tbl : Packetlist) : String :=
  jsonMarshalTargetsList (discoverEntries localAddress tbl)

/-- Substring containment, embedding `strings.Contains(s, sub)`. -/
def strContains (s sub : String) : Bool :=
  decide (sub.toList <:+: s.toList)

/-- Embedding of the error classification in `scrapeHandler` (main.go
lines 164-170): the error text is matched against the marker
`unable to connect with target` (socket error), else `i/o timeout`
(timeout), else it falls through to the parse-error case. The status
label strings are the stringer-generated names of the
`MystromReqStatus` constants. -/
def classifyError (errMsg : String) : String :=
  if strContains errMsg "unable to connect with target" then "ErrorSocket"
  else if strContains errMsg "i/o timeout" then "ErrorTimeout"
  else "ErrorParsingValue"

/-- The two process-wide counter collections of main.go:
`mystromRequestsCounterVec` keyed by `(target, status)` and
`mystromDurationCounterVec` keyed by `target`. Counter values are
abstract tallies; the duration counter accumulates the abstract elapsed
quantity passed to the handler. -/
structure Counters where
  requests : String → String → Nat
  duration : String → Nat

/-- Embedding of `mystromRequestsCounterVec.WithLabelValues(t, k).Inc()`. -/
def incRequests (c : Counters) (t k : String) : Counters :=
  { c with
    requests := fun t' k' =>
      if t' = t ∧ k' = k then c.requests t' k' + 1 else c.requests t' k' }

/-- Embedding of `mystromDurationCounterVec.WithLabelValues(t).Add(d)`. -/
def addDuration (c : Counters) (t : String) (d : Nat) : Counters :=
  { c with
    duration := fun t' => if t' = t then c.duration t' + d else c.duration t' }

/-- An HTTP response as written by the handler: status code and body. -/
structure HttpResponse where
  status : Nat
  body : String
deriving Repr, DecidableEq

/-- Abstract outcome of the opaque device client's `exporter.Scrape()`
call: a gatherer served as the response body, or an error. -/
inductive ScrapeOutcome where
  | ok (metricsBody : String)
  | fail (errMsg : String)
deriving Repr, DecidableEq

/-- Result of one `scrapeHandler` invocation: the response written, the
counter state after the call, and how many times the device client was
invoked. -/
structure ScrapeResult where
  response : HttpResponse
  counters : Counters
  clientCalls : Nat

/-- Embedding of `scrapeHandler` (main.go lines 150-183): empty target is
answered `400` before any client call; otherwise the client is called
once, a failure increments the request counter for the classified kind
and answers `500` naming target and cause, a success adds the elapsed
duration for the target, increments the `(target, OK)` request counter
and serves the gatherer. -/
def scrapeHandler (target : String) (outcome : ScrapeOutcome) (elapsed : Nat)
    (c : Counters) : ScrapeResult :=
  if target = "" then
    { response := { status := 400, body := "'target' parameter must be specified" }
      counters := c
      clientCalls := 0 }
  else
    match outcome with
    | ScrapeOutcome.fail errMsg =>
        { response :=
            { status := 500
              body := "failed to scrape target '" ++ target ++ "': " ++ errMsg }
          counters := incRequests c target (classifyError errMsg)
          clientCalls := 1 }
    | ScrapeOutcome.ok metricsBody =>
        { response := { status := 200, body := metricsBody }
          counters := incRequests (addDuration c target elapsed) target "OK"
          clientCalls := 1 }

/-- Embedding of `scrapeHandlerByMac` (main.go lines 137-147): resolves
the path parameter through `discover.TargetByMacaddr`, installs the
result as the `target` query parameter, and delegates to
`scrapeHandler`. -/
def scrapeHandlerByMac (tbl : Packetlist) (macaddr : String)
    (outcome : ScrapeOutcome) (elapsed : Nat) (c : Counters) : ScrapeResult :=
  scrapeHandler (TargetByMacaddr tbl macaddr) outcome elapsed c

/-- Key multiset invariant used for map faithfulness: the association
list carries pairwise-distinct keys, as a Go map does. -/
def keysNodup (tbl : Packetlist) : Prop :=
  (tbl.map Prod.fst).Nodup

/-- Invariant of the device table: every key is the colon-hex rendering
of its record's hardware address, as established by `discover.update`. -/
def TableInv (tbl : Packetlist) : Prop :=
  ∀ kv ∈ tbl, kv.1 = hwAddrString kv.2.macAddress

theorem lookupTable_setKey_self (tbl : Packetlist) (k : String) (v : Packet) :
    lookupTable (setKey k v tbl) k = some v := by
  induction tbl with
  | nil => simp [setKey, lookupTable, List.find?]
  | cons kv rest ih =>
      by_cases h : kv.1 = k
      · cases kv with
        | mk k' v' =>
            simp only at h
            simp [setKey, h, lookupTable, List.find?]
      · cases kv with
        | mk k' v' =>
            simp only at h
            simp only [setKey, if_neg h, lookupTable, List.find?]
            rw [show (k' == k) = false from beq_eq_false_iff_ne.mpr h]
            exact ih

theorem setKey_setKey_same (tbl : Packetlist) (k : String) (v w : Packet) :
    setKey k w (setKey k v tbl) = setKey k w tbl := by
  induction tbl with
  | nil => simp [setKey]
  | cons kv rest ih =>
      cases kv with
      | mk k' v' =>
          by_cases h : k' = k
          · simp [setKey, h]
          · simp [setKey, if_neg h, ih]

theorem mem_keys_setKey (tbl : Packetlist) (k x : String) (v : Packet)
    (hx : x ∈ (setKey k v tbl).map Prod.fst) :
    x ∈ tbl.map Prod.fst ∨ x = k := by
  induction tbl with
  | nil => simpa [setKey] using hx
  | cons kv rest ih =>
      cases kv with
      | mk k' v' =>
          by_cases h : k' = k
          · simp only [setKey, if_pos h, List.map_cons, List.mem_cons] at hx
            rcases hx with hx | hx
            · right; exact hx
            · left; simp [List.map_cons, List.mem_cons]; right
              simpa using hx
          · simp only [setKey, if_neg h, List.map_cons, List.mem_cons] at hx
            rcases hx with hx | hx
            · left; simp [hx]
            · rcases ih hx with h' | h'
              · left; simp [List.map_cons, List.mem_cons]; right; simpa using h'
              · right; exact h'

theorem keysNodup_setKey (tbl : Packetlist) (k : String) (v : Packet)
    (h : keysNodup tbl) : keysNodup (setKey k v tbl) := by
  induction tbl with
  | nil => simp [setKey, keysNodup]
  | cons kv rest ih =>
      cases kv with
      | mk k' v' =>
          simp only [keysNodup, List.map_cons, List.nodup_cons] at h
          by_cases hk : k' = k
          · simp only [keysNodup, setKey, if_pos hk, List.map_cons, List.nodup_cons]
            exact ⟨by simpa [hk] using h.1, h.2⟩
          · simp only [keysNodup, setKey, if_neg hk, List.map_cons, List.nodup_cons]
            refine ⟨fun hmem => ?_, ih h.2⟩
            rcases mem_keys_setKey rest k k' v hmem with h' | h'
            · exact h.1 h'
            · exact hk h'

theorem tableInv_setKey (tbl : Packetlist) (p : Packet) (h : TableInv tbl) :
    TableInv (setKey (hwAddrString p.macAddress) p tbl) := by
  induction tbl with
  | nil =>
      intro kv hkv
      simp only [setKey, List.mem_singleton] at hkv
      subst hkv; rfl
  | cons kv₀ rest ih =>
      cases kv₀ with
      | mk k' v' =>
          have h0 : (k', v').1 = hwAddrString (k', v').2.macAddress := h _ (by simp)
          have hrest : TableInv rest := fun kv hkv => h kv (by simp [hkv])
          by_cases hk : k' = hwAddrString p.macAddress
          · intro kv hkv
            simp only [setKey, if_pos hk, List.mem_cons] at hkv
            rcases hkv with hkv | hkv
            · subst hkv; rfl
            · exact hrest kv hkv
          · intro kv hkv
            simp only [setKey, if_neg hk, List.mem_cons] at hkv
            rcases hkv with hkv | hkv
            · subst hkv; exact h0
            · exact ih hrest kv hkv

/-- Sample record decoded from the end-to-end scenario packet. -/
def pktA : Packet :=
  { sourceIP := "10.0.0.5", port := 1234, macAddress := [1, 2, 3, 4, 5, 6], deviceType := 2 }

/-- Second sample record with the same hardware address as `pktA` but a
different source. -/
def pktB : Packet :=
  { sourceIP := "10.0.0.9", port := 4321, macAddress := [1, 2, 3, 4, 5, 6], deviceType := 5 }

/-- All-zero counter state used to instantiate counter theorems. -/
def zeroCounters : Counters :=
  { requests := fun _ _ => 0, duration := fun _ => 0 }

theorem decodeDatagram_of_long (data : List Nat) (ip : String) (prt : Nat)
    (h : 7 ≤ data.length) :
    decodeDatagram data ip prt =
      ListenResult.packet
        { sourceIP := ip, port := prt, macAddress := data.take 6, deviceType := data.getD 6 0 } := by
  have h6 : ¬ data.length < 6 := by omega
  cases hq : data[6]? with
  | none =>
      rw [List.getElem?_eq_none_iff] at hq
      omega
  | some x =>
      have hx : data.getD 6 0 = x := by
        simp [List.getD_eq_getElem?_getD, hq]
      simp [decodeDatagram, if_neg h6, List.get?_eq_getElem?, hq, hx]

/-- C1: the claim says every datagram shorter than 7 bytes is silently
discarded and decoding happens only for at least 7 bytes. The code's
guard at discover.go line 119 is `len < 6`, so a datagram of exactly 6
bytes is not discarded: it reaches the byte access `buffer.String()[6]`,
which is out of range (a Go runtime panic), while a datagram of at most
5 bytes is indeed skipped. This theorem evaluates the embedded loop body
at the failing 6-byte input and at a 5-byte input. -/
theorem c1_six_byte_datagram_panics :
    decodeDatagram [1, 2, 3, 4, 5, 6] "10.0.0.5" 1234 = ListenResult.indexOutOfRange
    ∧ decodeDatagram [1, 2, 3, 4, 5] "10.0.0.5" 1234 = ListenResult.skip := by
  exact ⟨rfl, rfl⟩

/-- C5: every datagram of length at least 7 decodes to a record holding
bytes 0-5 as the hardware address, byte 6 as the device type, and the
datagram's source IP and port; the payload beyond byte 6 is ignored. In
particular the packet 0x01..0x06,0x02 from 10.0.0.5:1234 stores a table
entry keyed `01:02:03:04:05:06` with device type 2 and source address
10.0.0.5, and the subsequent manifest holds exactly one entry whose
`__device_type` label is "2" and whose `instance` label is "10.0.0.5". -/
theorem c5_decode_and_end_to_end (data : List Nat) (ip : String) (prt : Nat)
    (h : 7 ≤ data.length) :
    decodeDatagram data ip prt =
      ListenResult.packet
        { sourceIP := ip, port := prt, macAddress := data.take 6, deviceType := data.getD 6 0 }
    ∧ decodeDatagram data ip prt = decodeDatagram (data.take 7) ip prt
    ∧ decodeDatagram [1, 2, 3, 4, 5, 6, 2] "10.0.0.5" 1234 = ListenResult.packet pktA
    ∧ lookupTable (update [] pktA) "01:02:03:04:05:06" = some pktA
    ∧ pktA.deviceType = 2
    ∧ pktA.sourceIP = "10.0.0.5"
    ∧ ∀ la, (discoverEntries la (update [] pktA)).map
          (fun e => (labelGet e.labels "__device_type", labelGet e.labels "instance"))
        = [("2", "10.0.0.5")] := by
  have htk : 7 ≤ (data.take 7).length := by
    simp [List.length_take]
    omega
  refine ⟨decodeDatagram_of_long data ip prt h, ?_, rfl, rfl, rfl, rfl, fun la => rfl⟩
  rw [decodeDatagram_of_long data ip prt h, decodeDatagram_of_long (data.take 7) ip prt htk]
  have h1 : (data.take 7).take 6 = data.take 6 := by
    rw [List.take_take]
    norm_num
  have h2 : (data.take 7).getD 6 0 = data.getD 6 0 := by
    rw [List.getD_eq_getElem?_getD, List.getD_eq_getElem?_getD, List.getElem?_take]
    simp
  rw [h1, h2]

/-- Witness for C5 at the end-to-end scenario datagram. -/
theorem c5_witness :
    decodeDatagram [1, 2, 3, 4, 5, 6, 2] "10.0.0.5" 1234 =
      ListenResult.packet
        { sourceIP := "10.0.0.5", port := 1234,
          macAddress := [1, 2, 3, 4, 5, 6, 2].take 6,
          deviceType := [1, 2, 3, 4, 5, 6, 2].getD 6 0 } :=
  (c5_decode_and_end_to_end [1, 2, 3, 4, 5, 6, 2] "10.0.0.5" 1234 (by decide)).1

/-- C6: the device table upsert is last-write-wins per hardware address:
applying two packets with the same hardware address in order is the same
as applying only the second, so exactly the second record is stored and
there is at most one record per hardware address (distinct keys are
preserved); applying the same packet twice equals applying it once. -/
theorem c6_last_write_wins (tbl : Packetlist) (p q r : Packet)
    (h : hwAddrString p.macAddress = hwAddrString q.macAddress) :
    update (update tbl p) q = update tbl q
    ∧ lookupTable (update (update tbl p) q) (hwAddrString q.macAddress) = some q
    ∧ update (update tbl r) r = update tbl r
    ∧ (keysNodup tbl → keysNodup (update tbl r)) := by
  refine ⟨?_, ?_, ?_, ?_⟩
  · unfold update
    rw [h]
    exact setKey_setKey_same tbl (hwAddrString q.macAddress) p q
  · exact lookupTable_setKey_self (update tbl p) (hwAddrString q.macAddress) q
  · exact setKey_setKey_same tbl (hwAddrString r.macAddress) r r
  · exact keysNodup_setKey tbl (hwAddrString r.macAddress) r

/-- Witness for C6 on an empty table, with two packets sharing the
hardware address 01:02:03:04:05:06 but different sources. -/
theorem c6_witness :
    update (update [] pktA) pktB = update [] pktB
    ∧ lookupTable (update (update [] pktA) pktB) (hwAddrString pktB.macAddress) = some pktB
    ∧ update (update [] pktA) pktA = update [] pktA
    ∧ (keysNodup [] → keysNodup (update [] pktA)) :=
  c6_last_write_wins [] pktA pktB pktA rfl

/-- C8: looking up a hardware address not present in the table returns
the empty string rather than an error, and looking up a present address
returns exactly the stored record's source address. The embedded
`TargetByMacaddr` is a pure read: it takes the table as an argument and
returns only a string, so the table is unchanged by construction. -/
theorem c8_lookup_total (tbl : Packetlist) (addr : String) :
    (lookupTable tbl addr = none → TargetByMacaddr tbl addr = "")
    ∧ ∀ p, lookupTable tbl addr = some p → TargetByMacaddr tbl addr = p.sourceIP := by
  constructor
  · intro h
    unfold TargetByMacaddr
    rw [h]
    rfl
  · intro p h
    unfold TargetByMacaddr
    rw [h]
    rfl

/-- Witness for C8: in the one-entry table for `pktA`, the unknown
address ff:ff resolves to the empty string and the known address
01:02:03:04:05:06 resolves to 10.0.0.5. -/
theorem c8_witness :
    TargetByMacaddr (update [] pktA) "ff:ff" = ""
    ∧ TargetByMacaddr (update [] pktA) "01:02:03:04:05:06" = "10.0.0.5" :=
  ⟨(c8_lookup_total (update [] pktA) "ff:ff").1 rfl,
   (c8_lookup_total (update [] pktA) "01:02:03:04:05:06").2 pktA rfl⟩

/-- C9: every update keeps the table invariant that each key is the
colon-hex rendering of its record's hardware address; consequently every
manifest entry's `__metrics_path__` label is `/device_by_mac/` followed
by exactly its `__mac_address` label. -/
theorem c9_key_invariant (tbl : Packetlist) (p : Packet) (h : TableInv tbl) :
    TableInv (update tbl p)
    ∧ ∀ la, ∀ e ∈ discoverEntries la tbl,
        labelGet e.labels "__metrics_path__" = "/device_by_mac/" ++ labelGet e.labels "__mac_address" := by
  constructor
  · exact tableInv_setKey tbl p h
  · intro la e he
    simp only [discoverEntries, List.mem_map] at he
    obtain ⟨kv, hkv, rfl⟩ := he
    have hk := h kv hkv
    have h1 : labelGet (mkEntry la kv.1 kv.2).labels "__metrics_path__"
        = "/device_by_mac/" ++ hwAddrString kv.2.macAddress := rfl
    have h2 : labelGet (mkEntry la kv.1 kv.2).labels "__mac_address" = kv.1 := rfl
    rw [h1, h2, hk]

theorem tableInvPktA : TableInv (update [] pktA) := by
  intro kv hkv
  simp only [update, setKey, List.mem_singleton] at hkv
  subst hkv
  rfl

/-- Witness for C9 on the one-entry table for `pktA`. -/
theorem c9_witness :
    TableInv (update (update [] pktA) pktB)
    ∧ labelGet (mkEntry "1.2.3.4:9452" "01:02:03:04:05:06" pktA).labels "__metrics_path__"
        = "/device_by_mac/" ++ labelGet (mkEntry "1.2.3.4:9452" "01:02:03:04:05:06" pktA).labels "__mac_address" :=
  ⟨(c9_key_invariant (update [] pktA) pktB tableInvPktA).1,
   (c9_key_invariant (update [] pktA) pktB tableInvPktA).2 "1.2.3.4:9452"
     (mkEntry "1.2.3.4:9452" "01:02:03:04:05:06" pktA) (by decide)⟩

/-- C2 as stated is false at the empty device table: `Discover` marshals
the nil `TargetsList` slice, which `encoding/json` serializes as the
JSON literal `null`, not as an empty JSON array. -/
theorem c2_counterexample : Discover "1.2.3.4:9452" [] ≠ "[]" := by
  decide

/-- C2 amended: when the device table is empty, `Discover` returns the
JSON literal `null` (the marshalling of a nil slice), not the empty
array; when the table holds two devices under distinct keys, the built
manifest has exactly two entries, each whose `__mac_address` label
equals that entry's table key. -/
theorem c2_amended_manifest (la k₁ k₂ : String) (p₁ p₂ : Packet) (h : k₁ ≠ k₂) :
    Discover la [] = "null"
    ∧ (discoverEntries la [(k₁, p₁), (k₂, p₂)]).length = 2
    ∧ (discoverEntries la [(k₁, p₁), (k₂, p₂)]).map (fun e => labelGet e.labels "__mac_address")
        = [k₁, k₂] :=
  ⟨rfl, rfl, rfl⟩

/-- Witness for the amended C2 with two concrete devices. -/
theorem c2_witness :
    Discover "1.2.3.4:9452" [] = "null"
    ∧ (discoverEntries "1.2.3.4:9452"
        [("01:02:03:04:05:06", pktA), ("0a:0b:0c:0d:0e:0f", pktB)]).length = 2
    ∧ (discoverEntries "1.2.3.4:9452"
        [("01:02:03:04:05:06", pktA), ("0a:0b:0c:0d:0e:0f", pktB)]).map
          (fun e => labelGet e.labels "__mac_address")
        = ["01:02:03:04:05:06", "0a:0b:0c:0d:0e:0f"] :=
  c2_amended_manifest "1.2.3.4:9452" "01:02:03:04:05:06" "0a:0b:0c:0d:0e:0f" pktA pktB
    (by decide)

/-- C4: a scrape request with an empty target is answered with the
bad-request response immediately, the counters are untouched and the
device client is never invoked; with any non-empty target the client is
invoked exactly once. -/
theorem c4_empty_target_no_call (target : String) (o : ScrapeOutcome) (el : Nat)
    (c : Counters) :
    scrapeHandler "" o el c =
      { response := { status := 400, body := "'target' parameter must be specified" }
        counters := c
        clientCalls := 0 }
    ∧ (target ≠ "" → (scrapeHandler target o el c).clientCalls = 1) := by
  constructor
  · rfl
  · intro h
    unfold scrapeHandler
    rw [if_neg h]
    cases o <;> rfl

/-- Witness for C4 at a concrete target and outcome. -/
theorem c4_witness :
    scrapeHandler "" (ScrapeOutcome.fail "i/o timeout") 3 zeroCounters =
      { response := { status := 400, body := "'target' parameter must be specified" }
        counters := zeroCounters
        clientCalls := 0 }
    ∧ (scrapeHandler "1.2.3.4" (ScrapeOutcome.fail "i/o timeout") 3 zeroCounters).clientCalls = 1 :=
  ⟨(c4_empty_target_no_call "1.2.3.4" (ScrapeOutcome.fail "i/o timeout") 3 zeroCounters).1,
   (c4_empty_target_no_call "1.2.3.4" (ScrapeOutcome.fail "i/o timeout") 3 zeroCounters).2
     (by decide)⟩

/-- C3: every failed device fetch is classified into exactly one of the
three kinds by inspecting the error text (socket error for the
connect marker, timeout for the i/o timeout marker, parse error as the
catch-all), exactly the request-counter cell `(target, kind)` for that
one kind is incremented while every other cell is unchanged, and the
response is the 500 error naming the target and the underlying cause. -/
theorem c3_failure_classification (target errMsg : String) (el : Nat) (c : Counters)
    (h : target ≠ "") :
    ((classifyError errMsg = "ErrorSocket"
        ∧ classifyError errMsg ≠ "ErrorTimeout" ∧ classifyError errMsg ≠ "ErrorParsingValue")
      ∨ (classifyError errMsg ≠ "ErrorSocket"
        ∧ classifyError errMsg = "ErrorTimeout" ∧ classifyError errMsg ≠ "ErrorParsingValue")
      ∨ (classifyError errMsg ≠ "ErrorSocket"
        ∧ classifyError errMsg ≠ "ErrorTimeout" ∧ classifyError errMsg = "ErrorParsingValue"))
    ∧ (strContains errMsg "unable to connect with target" = false →
        strContains errMsg "i/o timeout" = false →
        classifyError errMsg = "ErrorParsingValue")
    ∧ (scrapeHandler target (ScrapeOutcome.fail errMsg) el c).counters.requests
        target (classifyError errMsg)
      = c.requests target (classifyError errMsg) + 1
    ∧ (∀ t k, ¬(t = target ∧ k = classifyError errMsg) →
        (scrapeHandler target (ScrapeOutcome.fail errMsg) el c).counters.requests t k
          = c.requests t k)
    ∧ (scrapeHandler target (ScrapeOutcome.fail errMsg) el c).response =
        { status := 500, body := "failed to scrape target '" ++ target ++ "': " ++ errMsg } := by
  have hs : scrapeHandler target (ScrapeOutcome.fail errMsg) el c =
      { response :=
          { status := 500
            body := "failed to scrape target '" ++ target ++ "': " ++ errMsg }
        counters := incRequests c target (classifyError errMsg)
        clientCalls := 1 } := by
    unfold scrapeHandler
    rw [if_neg h]
  refine ⟨?_, ?_, ?_, ?_, ?_⟩
  · unfold classifyError
    by_cases h1 : strContains errMsg "unable to connect with target" = true
    · rw [if_pos h1]
      left
      exact ⟨rfl, by decide, by decide⟩
    · rw [if_neg h1]
      by_cases h2 : strContains errMsg "i/o timeout" = true
      · rw [if_pos h2]
        right; left
        exact ⟨by decide, rfl, by decide⟩
      · rw [if_neg h2]
        right; right
        exact ⟨by decide, by decide, rfl⟩
  · intro h1 h2
    unfold classifyError
    rw [h1, h2]
    simp
  · rw [hs]
    simp [incRequests]
  · intro t k hk
    rw [hs]
    simp only [incRequests]
    rw [if_neg hk]
  · rw [hs]

/-- Witness for C3 at a concrete timeout-style error. -/
theorem c3_witness :
    ((classifyError "read udp: i/o timeout" = "ErrorSocket"
        ∧ classifyError "read udp: i/o timeout" ≠ "ErrorTimeout"
        ∧ classifyError "read udp: i/o timeout" ≠ "ErrorParsingValue")
      ∨ (classifyError "read udp: i/o timeout" ≠ "ErrorSocket"
        ∧ classifyError "read udp: i/o timeout" = "ErrorTimeout"
        ∧ classifyError "read udp: i/o timeout" ≠ "ErrorParsingValue")
      ∨ (classifyError "read udp: i/o timeout" ≠ "ErrorSocket"
        ∧ classifyError "read udp: i/o timeout" ≠ "ErrorTimeout"
        ∧ classifyError "read udp: i/o timeout" = "ErrorParsingValue"))
    ∧ (strContains "read udp: i/o timeout" "unable to connect with target" = false →
        strContains "read udp: i/o timeout" "i/o timeout" = false →
        classifyError "read udp: i/o timeout" = "ErrorParsingValue")
    ∧ (scrapeHandler "1.2.3.4" (ScrapeOutcome.fail "read udp: i/o timeout") 3 zeroCounters).counters.requests
        "1.2.3.4" (classifyError "read udp: i/o timeout")
      = zeroCounters.requests "1.2.3.4" (classifyError "read udp: i/o timeout") + 1
    ∧ (∀ t k, ¬(t = "1.2.3.4" ∧ k = classifyError "read udp: i/o timeout") →
        (scrapeHandler "1.2.3.4" (ScrapeOutcome.fail "read udp: i/o timeout") 3 zeroCounters).counters.requests t k
          = zeroCounters.requests t k)
    ∧ (scrapeHandler "1.2.3.4" (ScrapeOutcome.fail "read udp: i/o timeout") 3 zeroCounters).response =
        { status := 500
          body := "failed to scrape target '" ++ "1.2.3.4" ++ "': " ++ "read udp: i/o timeout" } :=
  c3_failure_classification "1.2.3.4" "read udp: i/o timeout" 3 zeroCounters (by decide)

/-- C7: per scrape outcome only the matching counters change. On success
the request counter cell `(target, OK)` grows by one and the duration
counter for the target accumulates the elapsed time, with every other
request cell and every other target's duration unchanged; on failure
only the request cell `(target, kind)` for the classified kind changes
and the duration counters are untouched. -/
theorem c7_counter_effects (target metricsBody errMsg : String) (el : Nat) (c : Counters)
    (h : target ≠ "") :
    ((scrapeHandler target (ScrapeOutcome.ok metricsBody) el c).counters.requests target "OK"
        = c.requests target "OK" + 1
      ∧ (scrapeHandler target (ScrapeOutcome.ok metricsBody) el c).counters.duration target
        = c.duration target + el
      ∧ (∀ t k, ¬(t = target ∧ k = "OK") →
          (scrapeHandler target (ScrapeOutcome.ok metricsBody) el c).counters.requests t k
            = c.requests t k)
      ∧ (∀ t, t ≠ target →
          (scrapeHandler target (ScrapeOutcome.ok metricsBody) el c).counters.duration t
            = c.duration t))
    ∧ ((scrapeHandler target (ScrapeOutcome.fail errMsg) el c).counters.duration = c.duration
      ∧ (scrapeHandler target (ScrapeOutcome.fail errMsg) el c).counters.requests
          target (classifyError errMsg)
        = c.requests target (classifyError errMsg) + 1
      ∧ ∀ t k, ¬(t = target ∧ k = classifyError errMsg) →
          (scrapeHandler target (ScrapeOutcome.fail errMsg) el c).counters.requests t k
            = c.requests t k) := by
  have hok : scrapeHandler target (ScrapeOutcome.ok metricsBody) el c =
      { response := { status := 200, body := metricsBody }
        counters := incRequests (addDuration c target el) target "OK"
        clientCalls := 1 } := by
    unfold scrapeHandler
    rw [if_neg h]
  have hfail : scrapeHandler target (ScrapeOutcome.fail errMsg) el c =
      { response :=
          { status := 500
            body := "failed to scrape target '" ++ target ++ "': " ++ errMsg }
        counters := incRequests c target (classifyError errMsg)
        clientCalls := 1 } := by
    unfold scrapeHandler
    rw [if_neg h]
  refine ⟨⟨?_, ?_, ?_, ?_⟩, ?_, ?_, ?_⟩
  · rw [hok]
    simp [incRequests, addDuration]
  · rw [hok]
    simp [incRequests, addDuration]
  · intro t k hk
    rw [hok]
    simp only [incRequests, addDuration]
    rw [if_neg hk]
  · intro t ht
    rw [hok]
    simp only [incRequests, addDuration]
    rw [if_neg ht]
  · rw [hfail]
    rfl
  · rw [hfail]
    simp [incRequests]
  · intro t k hk
    rw [hfail]
    simp only [incRequests]
    rw [if_neg hk]

/-- Witness for C7 at a concrete target, outcome pair and elapsed time. -/
theorem c7_witness :
    ((scrapeHandler "1.2.3.4" (ScrapeOutcome.ok "mbody") 5 zeroCounters).counters.requests "1.2.3.4" "OK"
        = zeroCounters.requests "1.2.3.4" "OK" + 1
      ∧ (scrapeHandler "1.2.3.4" (ScrapeOutcome.ok "mbody") 5 zeroCounters).counters.duration "1.2.3.4"
        = zeroCounters.duration "1.2.3.4" + 5
      ∧ (∀ t k, ¬(t = "1.2.3.4" ∧ k = "OK") →
          (scrapeHandler "1.2.3.4" (ScrapeOutcome.ok "mbody") 5 zeroCounters).counters.requests t k
            = zeroCounters.requests t k)
      ∧ (∀ t, t ≠ "1.2.3.4" →
          (scrapeHandler "1.2.3.4" (ScrapeOutcome.ok "mbody") 5 zeroCounters).counters.duration t
            = zeroCounters.duration t))
    ∧ ((scrapeHandler "1.2.3.4" (ScrapeOutcome.fail "boom") 5 zeroCounters).counters.duration = zeroCounters.duration
      ∧ (scrapeHandler "1.2.3.4" (ScrapeOutcome.fail "boom") 5 zeroCounters).counters.requests
          "1.2.3.4" (classifyError "boom")
        = zeroCounters.requests "1.2.3.4" (classifyError "boom") + 1
      ∧ ∀ t k, ¬(t = "1.2.3.4" ∧ k = classifyError "boom") →
          (scrapeHandler "1.2.3.4" (ScrapeOutcome.fail "boom") 5 zeroCounters).counters.requests t k
            = zeroCounters.requests t k) :=
  c7_counter_effects "1.2.3.4" "mbody" "boom" 5 zeroCounters (by decide)

/-- C10: a by-hardware-address scrape for an address unknown to the
device table installs the empty lookup result as the target and is then
rejected by the scrape handler's non-empty-target precondition: the
response is the 400 bad-request of the missing-target check (not 404 or
500), the counters are untouched and the device client is not called. -/
theorem c10_unknown_mac_bad_request (tbl : Packetlist) (macaddr : String)
    (o : ScrapeOutcome) (el : Nat) (c : Counters)
    (h : lookupTable tbl macaddr = none) :
    TargetByMacaddr tbl macaddr = ""
    ∧ scrapeHandlerByMac tbl macaddr o el c =
        { response := { status := 400, body := "'target' parameter must be specified" }
          counters := c
          clientCalls := 0 } := by
  have ht : TargetByMacaddr tbl macaddr = "" := by
    unfold TargetByMacaddr
    rw [h]
    rfl
  refine ⟨ht, ?_⟩
  unfold scrapeHandlerByMac
  rw [ht]
  rfl

/-- Witness for C10: the address ff:ff is absent from the one-entry
table for `pktA`. -/
theorem c10_witness :
    TargetByMacaddr (update [] pktA) "ff:ff" = ""
    ∧ scrapeHandlerByMac (update [] pktA) "ff:ff" (ScrapeOutcome.ok "mbody") 5 zeroCounters =
        { response := { status := 400, body := "'target' parameter must be specified" }
          counters := zeroCounters
          clientCalls := 0 } :=
  c10_unknown_mac_bad_request (update [] pktA) "ff:ff" (ScrapeOutcome.ok "mbody") 5
    zeroCounters rfl
